import Mathlib

/-!
Verification of the Hydro-AI reservoir dashboard core: the deterministic
seasonal-data generator, derived-metric (capacity percentage) calculators,
the water-polygon synthesizer, the coordinate validator, and the
selection-state controller.

JavaScript numbers are modelled by `JsNum`: a finite rational, `NaN`, or a
signed infinity.  Finite IEEE-754 doubles are embedded as rationals; the
model has no signed zero and finite arithmetic never overflows to infinity
(the source never reaches the overflow range on its own data).
Transcendental library functions (`Math.sin`, `Math.cos`) and the entropy
source (`Math.random`) are taken as function parameters, since their exact
values are irrelevant to the properties proved here.
-/

/-- A JavaScript number: a finite value (embedded as a rational), `NaN`,
`Infinity` or `-Infinity`. -/
inductive JsNum : Type
  | finite (q : ℚ)
  | nan
  | inf
  | neginf
deriving DecidableEq, Repr, Inhabited

namespace JsNum

/-- `Number.isFinite` on a `JsNum`. -/
def isFinite : JsNum → Bool
  | .finite _ => true
  | _ => false

/-- JavaScript truthiness of a number: `0` and `NaN` are falsy. -/
def falsy : JsNum → Bool
  | .finite q => q == 0
  | .nan => true
  | _ => false

end JsNum

/-- JavaScript `+` on numbers: `NaN` propagates, opposite infinities give
`NaN`, an infinity otherwise absorbs. -/
def jsAdd : JsNum → JsNum → JsNum
  | .finite a, .finite b => .finite (a + b)
  | .nan, _ => .nan
  | _, .nan => .nan
  | .inf, .neginf => .nan
  | .neginf, .inf => .nan
  | .inf, _ => .inf
  | _, .inf => .inf
  | .neginf, _ => .neginf
  | _, .neginf => .neginf

/-- JavaScript `*` on numbers: `NaN` propagates, infinity times zero is
`NaN`, infinity times a nonzero value is a sign-adjusted infinity. -/
def jsMul : JsNum → JsNum → JsNum
  | .finite a, .finite b => .finite (a * b)
  | .nan, _ => .nan
  | _, .nan => .nan
  | .inf, .inf => .inf
  | .inf, .neginf => .neginf
  | .neginf, .inf => .neginf
  | .neginf, .neginf => .inf
  | .inf, .finite b => if b = 0 then .nan else if 0 < b then .inf else .neginf
  | .finite a, .inf => if a = 0 then .nan else if 0 < a then .inf else .neginf
  | .neginf, .finite b => if b = 0 then .nan else if 0 < b then .neginf else .inf
  | .finite a, .neginf => if a = 0 then .nan else if 0 < a then .neginf else .inf

/-- JavaScript `/` on numbers: `0/0` and `inf/inf` are `NaN`, a nonzero
finite value over zero is a signed infinity (the model has no `-0`, so
division is by `+0`), a finite value over an infinity is `0`. -/
def jsDiv : JsNum → JsNum → JsNum
  | .nan, _ => .nan
  | _, .nan => .nan
  | .finite a, .finite b =>
      if b = 0 then (if a = 0 then .nan else if 0 < a then .inf else .neginf)
      else .finite (a / b)
  | .finite _, .inf => .finite 0
  | .finite _, .neginf => .finite 0
  | .inf, .finite b => if 0 ≤ b then .inf else .neginf
  | .neginf, .finite b => if 0 ≤ b then .neginf else .inf
  | .inf, _ => .nan
  | .neginf, _ => .nan

/-- JavaScript `Math.round` on a finite value: round half toward positive
infinity. -/
def jsRound (q : ℚ) : ℤ := ⌊q + 1 / 2⌋

/-- JavaScript `Math.round` on a number: `NaN` and the infinities map to
themselves. -/
def jsRoundNum : JsNum → JsNum
  | .finite q => .finite ((jsRound q : ℤ) : ℚ)
  | n => n

/-- A JavaScript value, as far as the coordinate validator inspects one:
a number, a string, a boolean, `null`, `undefined`, or an array. -/
inductive JsValue : Type
  | num (n : JsNum)
  | str (s : String)
  | boolean (b : Bool)
  | null
  | undefined
  | arr (elems : List JsValue)
deriving Repr

/-- Indexing `coord[i]` on an array: out-of-range reads give `undefined`. -/
def jsIndex (xs : List JsValue) (i : ℕ) : JsValue := xs.getD i JsValue.undefined

/-- `typeof v === 'number'`. -/
def typeofIsNumber : JsValue → Bool
  | .num _ => true
  | _ => false

/-- `Number.isFinite(v)`: no coercion, so `false` on every non-number. -/
def numberIsFinite : JsValue → Bool
  | .num n => n.isFinite
  | _ => false

/-- `isValidCoordinate` from `src/unnamed/part_002` lines 23-28:
`Array.isArray(coord) && coord.length === 2 && typeof coord[0] === 'number'
&& Number.isFinite(coord[0]) && typeof coord[1] === 'number' &&
Number.isFinite(coord[1])`. -/
def isValidCoordinate (v : JsValue) : Bool :=
  match v with
  | .arr xs =>
      decide (xs.length = 2) && typeofIsNumber (jsIndex xs 0)
        && numberIsFinite (jsIndex xs 0) && typeofIsNumber (jsIndex xs 1)
        && numberIsFinite (jsIndex xs 1)
  | _ => false

/-- The second copy of `isValidCoordinate`, `src/unnamed/part_002` lines
233-238, which omits the `typeof` checks and relies on `Number.isFinite`
rejecting non-numbers. -/
def isValidCoordinateLoose (v : JsValue) : Bool :=
  match v with
  | .arr xs =>
      decide (xs.length = 2) && numberIsFinite (jsIndex xs 0)
        && numberIsFinite (jsIndex xs 1)
  | _ => false

/-- One of the four fixed seasons (`SeasonalData['season']` in
`src/types.ts`). -/
inductive Season : Type
  | winter
  | summer
  | monsoon
  | postMonsoon
deriving DecidableEq, Repr, Inhabited

/-- A static reference reservoir (`Reservoir` in `src/types.ts`). -/
structure Reservoir : Type where
  id : String
  name : String
  location : ℚ × ℚ
  maxCapacity : ℚ
  fullLevel : ℚ
  catchmentArea : ℚ
  yearBuilt : ℤ
  description : String
deriving DecidableEq, Repr

/-- One seasonal observation (`SeasonalData` in `src/types.ts`).  `volume`
and `rainfall` are integers because the generator rounds them; the other
figures keep one or two decimals. -/
structure SeasonalData : Type where
  season : Season
  year : ℤ
  waterLevel : ℚ
  surfaceArea : ℚ
  volume : ℤ
  rainfall : ℤ
  cloudCover : ℤ
deriving DecidableEq, Repr, Inhabited

/-- The fixed reference list from `src/services/mockData.ts` lines 3-64. -/
def RESERVOIRS : List Reservoir :=
  [{ id := "res-chembarambakkam", name := "Chembarambakkam Lake",
     location := (130089/10000, 800573/10000), maxCapacity := 103, fullLevel := 259/10,
     catchmentArea := 358, yearBuilt := 1900,
     description := "A major reservoir in Kanchipuram district." },
   { id := "res-cholavaram", name := "Cholavaram Lake",
     location := (132330/10000, 801420/10000), maxCapacity := 30, fullLevel := 185/10,
     catchmentArea := 72, yearBuilt := 1877,
     description := "One of the oldest reservoirs supplying Chennai." },
   { id := "res-veeranam", name := "Veeranam Lake",
     location := (113556/10000, 795414/10000), maxCapacity := 41, fullLevel := 145/10,
     catchmentArea := 443, yearBuilt := 990,
     description := "Located in Cuddalore district." },
   { id := "res-poondi", name := "Poondi Reservoir",
     location := (131917/10000, 798596/10000), maxCapacity := 91, fullLevel := 42,
     catchmentArea := 1950, yearBuilt := 1944,
     description := "Also known as Sathyamoorthy Sagar." },
   { id := "res-redhills", name := "Red Hills (Puzhal Lake)",
     location := (131537/10000, 801914/10000), maxCapacity := 93, fullLevel := 152/10,
     catchmentArea := 63, yearBuilt := 1876,
     description := "A rain-fed reservoir in Thiruvallur district." },
   { id := "res-kaveripakkam", name := "Kaveripakkam Lake",
     location := (128966/10000, 794623/10000), maxCapacity := 42, fullLevel := 128/10,
     catchmentArea := 120, yearBuilt := 900,
     description := "An ancient irrigation tank in Ranipet district." }]

/-- JavaScript `x || d` on a possibly missing number `x`: the default `d`
is taken when `x` is missing (`reservoir` was `undefined`) or zero
(falsy).  Models `reservoir?.maxCapacity || 100` and
`reservoir?.fullLevel || 20` in `src/services/mockData.ts` lines 121-122. -/
def jsOrQ (x : Option ℚ) (d : ℚ) : ℚ :=
  match x with
  | some q => if q = 0 then d else q
  | none => d

/-- The generator's seed (`src/services/mockData.ts` line 103): the code
unit of the identifier's last character, or 42 for the empty identifier.
The reference identifiers are ASCII, where `charCodeAt` of the last index
is the last character's code point. -/
def seedOf (reservoirId : String) : ℕ :=
  match reservoirId.data.getLast? with
  | some c => c.toNat
  | none => 42

/-- The per-season base capacity percentage (`src/services/mockData.ts`
lines 107-111; the initial `baseVol = 50` is overwritten in every one of
the four cases). -/
def baseVolOf : Season → ℚ
  | .monsoon => 90
  | .postMonsoon => 80
  | .winter => 60
  | .summer => 30

/-- The looked-up `maxVol` for an identifier:
`RESERVOIRS.find(r => r.id === reservoirId)?.maxCapacity || 100`
(`src/services/mockData.ts` lines 120-121). -/
def capacityOf (reservoirId : String) : ℚ :=
  jsOrQ ((RESERVOIRS.find? (fun r => r.id == reservoirId)).map Reservoir.maxCapacity) 100

/-- The looked-up `fullLevel` for an identifier:
`RESERVOIRS.find(r => r.id === reservoirId)?.fullLevel || 20`
(`src/services/mockData.ts` lines 120-122). -/
def fullLevelOf (reservoirId : String) : ℚ :=
  jsOrQ ((RESERVOIRS.find? (fun r => r.id == reservoirId)).map Reservoir.fullLevel) 20

/-- The body of the generator's inner loop with the looked-up constants
made explicit (`src/services/mockData.ts` lines 107-139).  `sinF` stands
for `Math.sin`. -/
def mkSeasonalDataWith (sinF : ℚ → ℚ) (seed : ℕ) (maxVol fullLevel : ℚ)
    (year : ℤ) (season : Season) (index : ℕ) : SeasonalData :=
  let baseVol : ℚ := baseVolOf season
  let trend : ℚ := ((year - 2020 : ℤ) : ℚ) * (if seed % 2 = 0 then -2 else 1)
  let noise : ℚ := sinF ((year * (index : ℤ) : ℤ) : ℚ) * 10
  let volume : ℚ := max 10 (min 100 (baseVol + trend + noise))
  let actualVolume : ℤ := jsRound (volume / 100 * maxVol)
  let surfaceArea : ℚ := ((jsRound ((actualVolume : ℚ) / maxVol * 15 * 100) : ℤ) : ℚ) / 100
  let waterLevel : ℚ := ((jsRound (volume / 100 * fullLevel * 10) : ℤ) : ℚ) / 10
  let rainfall : ℚ := if season = .monsoon then 800 + noise * 10 else 50 + noise
  { season := season
    year := year
    waterLevel := waterLevel
    surfaceArea := surfaceArea
    volume := actualVolume
    rainfall := max 0 (jsRound rainfall)
    cloudCover := if season = .monsoon then 80 else 10 }

/-- One iteration of the generator's inner loop: the reservoir lookup
(done afresh inside the loop in the source) followed by the record
computation. -/
def mkSeasonalData (sinF : ℚ → ℚ) (reservoirId : String) (seed : ℕ)
    (year : ℤ) (season : Season) (index : ℕ) : SeasonalData :=
  mkSeasonalDataWith sinF seed (capacityOf reservoirId) (fullLevelOf reservoirId)
    year season index

/-- The fixed season order of `src/services/mockData.ts` line 99. -/
def seasons : List Season := [.winter, .summer, .monsoon, .postMonsoon]

/-- `getHistoricalData` (`src/services/mockData.ts` lines 96-143): the
full series for years 2020-2024, four seasons per year in fixed order.
`sinF` stands for `Math.sin`. -/
def getHistoricalData (sinF : ℚ → ℚ) (reservoirId : String) : List SeasonalData :=
  (List.range 5).flatMap (fun k =>
    seasons.enum.map (fun p =>
      mkSeasonalData sinF reservoirId (seedOf reservoirId) (2020 + (k : ℤ)) p.2 p.1))

/-- `generateWaterPolygon` (`src/services/mockData.ts` lines 67-93).
`rand i` stands for the value of the `i`-th call of `Math.random`, `cosF`
and `sinF` for `Math.cos` and `Math.sin` (finite results on finite
arguments), and `piQ` for `Math.PI`.  A `null`/`undefined` center is the
`none` case of the option. -/
def generateWaterPolygon (rand : ℕ → ℚ) (cosF sinF : ℚ → ℚ) (piQ : ℚ)
    (center : Option (JsNum × JsNum)) (volumePct : JsNum) : List (JsNum × JsNum) :=
  match center with
  | none => []
  | some (c0, c1) =>
    if !c0.isFinite || !c1.isFinite then []
    else
      let safeVolPct : JsNum := if volumePct.isFinite then volumePct else .finite 0
      let baseRadius : JsNum := jsMul (.finite (15/1000)) (jsDiv safeVolPct (.finite 100))
      (List.range 20).filterMap (fun (i : ℕ) =>
        let angle : ℚ := ((i : ℚ) * 360) / 20
        let rad : ℚ := angle * piQ / 180
        let r : JsNum := jsMul baseRadius (.finite (8/10 + rand i * (4/10)))
        let lat : JsNum := jsAdd c0 (jsMul r (.finite (cosF rad)))
        let lng : JsNum := jsAdd c1 (jsMul (jsMul r (.finite (sinF rad))) (.finite (12/10)))
        if lat.isFinite && lng.isFinite then some (lat, lng) else none)

/-- The guarded capacity-percentage calculator `volumePercentage`
(`src/unnamed/part_002` lines 82-86 and 500-504): `0` when the volume or
the maximum capacity is falsy, else `(volume / maxCapacity) * 100`
coerced to `0` when not finite. -/
def volumePercentage (volume maxCapacity : JsNum) : JsNum :=
  if volume.falsy || maxCapacity.falsy then .finite 0
  else
    let pct := jsMul (jsDiv volume maxCapacity) (.finite 100)
    if pct.isFinite then pct else .finite 0

/-- The second `volumePercentage` copy (`src/unnamed/part_002` lines
288-291), which lacks the final `Number.isFinite` coercion. -/
def volumePercentageLoose (volume maxCapacity : JsNum) : JsNum :=
  if volume.falsy || maxCapacity.falsy then .finite 0
  else jsMul (jsDiv volume maxCapacity) (.finite 100)

/-- The capacity percentage shown by the Storage Vol `StatCard` sub-label
(`src/App.tsx` line 259):
`Math.round((displayData.volume / selectedReservoir.maxCapacity) * 100)`,
with no guard of any kind. -/
def statCardCapacityPct (volume maxCapacity : JsNum) : JsNum :=
  jsRoundNum (jsMul (jsDiv volume maxCapacity) (.finite 100))

/-- The transient UI selection state (`SimulationState` in
`src/types.ts`). -/
structure SimulationState : Type where
  selectedReservoirId : String
  year : ℤ
  season : Season
  isComparisonMode : Bool
  compareYear : ℤ
  compareSeason : Season
deriving DecidableEq, Repr

/-- A `Partial<SimulationState>` field update: `none` is an absent key. -/
structure SimulationStateUpdate : Type where
  selectedReservoirId : Option String := none
  year : Option ℤ := none
  season : Option Season := none
  isComparisonMode : Option Bool := none
  compareYear : Option ℤ := none
  compareSeason : Option Season := none
deriving DecidableEq, Repr

/-- The spread `{ ...prev, ...newState }`: a field named in the update
wins, every other field keeps its previous value. -/
def mergeState (prev : SimulationState) (upd : SimulationStateUpdate) : SimulationState where
  selectedReservoirId := upd.selectedReservoirId.getD prev.selectedReservoirId
  year := upd.year.getD prev.year
  season := upd.season.getD prev.season
  isComparisonMode := upd.isComparisonMode.getD prev.isComparisonMode
  compareYear := upd.compareYear.getD prev.compareYear
  compareSeason := upd.compareSeason.getD prev.compareSeason

/-- `Math.min(...availableYears)` for a nonempty year list.  JavaScript
returns `Infinity` on the empty spread; the app always passes the five
generated years, so the empty case is given the junk value 0 here and the
theorems about it use nonempty or concrete lists only. -/
def jsMinList (l : List ℤ) : ℤ :=
  match l with
  | [] => 0
  | x :: xs => xs.foldl min x

/-- The update emitted by `toggleComparison` (`src/unnamed/part_000`
lines 15-22): flip the mode; when enabling, seed the comparison year to
`max(min(availableYears), year - 1)` and the comparison season to the
primary season; when disabling, emit the stored comparison fields
unchanged. -/
def toggleComparison (availableYears : List ℤ) (state : SimulationState) :
    SimulationStateUpdate where
  isComparisonMode := some (!state.isComparisonMode)
  compareYear := some (if state.isComparisonMode then state.compareYear
                       else max (jsMinList availableYears) (state.year - 1))
  compareSeason := some (if state.isComparisonMode then state.compareSeason
                         else state.season)

/-- One of the four ordered risk severities (`AIAnalysisResult.riskLevel`
in `src/types.ts`). -/
inductive RiskLevel : Type
  | low
  | moderate
  | high
  | critical
deriving DecidableEq, Repr

/-- One of the four ordered drought severities
(`AIAnalysisResult.droughtSeverity` in `src/types.ts`). -/
inductive DroughtSeverity : Type
  | normal
  | moderate
  | severe
  | extreme
deriving DecidableEq, Repr

/-- The externally produced analysis artifact (`AIAnalysisResult` in
`src/types.ts`); the core only stores or clears it. -/
structure AIAnalysisResult : Type where
  riskLevel : RiskLevel
  summary : String
  recommendation : String
  floodProbability : ℚ
  droughtSeverity : DroughtSeverity
  forecast : String
deriving DecidableEq, Repr

/-- The part of the App component's state that `handleStateChange`
touches: the selection state and the cached analysis. -/
structure AppAnalysisState : Type where
  state : SimulationState
  aiAnalysis : Option AIAnalysisResult
deriving DecidableEq, Repr

/-- `handleStateChange` (`src/App.tsx` lines 110-113):
`setState(prev => ({ ...prev, ...newState })); setAiAnalysis(null)`. -/
def handleStateChange (newState : SimulationStateUpdate) (app : AppAnalysisState) :
    AppAnalysisState where
  state := mergeState app.state newState
  aiAnalysis := none

/-! ## Helper lemmas -/

lemma numberIsFinite_implies_typeof {x : JsValue} (h : numberIsFinite x = true) :
    typeofIsNumber x = true := by
  cases x <;> simp_all [numberIsFinite, typeofIsNumber]

lemma jsRound_nonneg {q : ℚ} (hq : 0 ≤ q) : 0 ≤ jsRound q := by
  unfold jsRound
  rw [Int.le_floor]
  push_cast
  linarith

lemma jsRound_le_int {q : ℚ} {n : ℤ} (hqn : q ≤ n) : jsRound q ≤ n :=
  calc jsRound q = ⌊q + 1 / 2⌋ := rfl
    _ ≤ ⌊(n : ℚ) + 1 / 2⌋ := Int.floor_le_floor (by linarith)
    _ = n + ⌊(1 / 2 : ℚ)⌋ := Int.floor_int_add n _
    _ = n := by norm_num

lemma filterMap_const_some {α β : Type} (l : List α) (c : β) (f : α → Option β)
    (hf : ∀ a ∈ l, f a = some c) : l.filterMap f = List.replicate l.length c := by
  induction l with
  | nil => simp
  | cons x xs ih =>
      rw [List.filterMap_cons, hf x (by simp)]
      simp only [List.length_cons, List.replicate_succ]
      rw [ih (fun a ha => hf a (by simp [ha]))]

/-! ## Claims -/

/-- C6: `isValidCoordinate` returns true exactly on two-element arrays of
finite numbers (so false on `NaN`/`Infinity` elements, wrong-length
arrays, non-arrays, non-numeric elements), and the second copy without
the `typeof` checks agrees with it on every input. -/
theorem isValidCoordinate_iff (v : JsValue) :
    (isValidCoordinate v = true ↔
      ∃ a b : ℚ, v = .arr [.num (.finite a), .num (.finite b)]) ∧
    isValidCoordinateLoose v = isValidCoordinate v := by
  constructor
  · constructor
    · intro hv
      cases v with
      | arr xs =>
          rcases xs with _ | ⟨x, _ | ⟨y, _ | ⟨z, zs⟩⟩⟩ <;>
            simp only [isValidCoordinate, jsIndex, List.getD, List.length_cons,
              List.length_nil, Bool.and_eq_true, decide_eq_true_eq] at hv
          · omega
          · omega
          · obtain ⟨⟨⟨⟨-, h1⟩, h2⟩, h3⟩, h4⟩ := hv
            cases x with
            | num n =>
                cases y with
                | num m =>
                    cases n with
                    | finite a =>
                        cases m with
                        | finite b => exact ⟨a, b, rfl⟩
                        | nan => simp [List.getD, numberIsFinite, JsNum.isFinite] at h4
                        | inf => simp [List.getD, numberIsFinite, JsNum.isFinite] at h4
                        | neginf => simp [List.getD, numberIsFinite, JsNum.isFinite] at h4
                    | nan => simp [List.getD, numberIsFinite, JsNum.isFinite] at h2
                    | inf => simp [List.getD, numberIsFinite, JsNum.isFinite] at h2
                    | neginf => simp [List.getD, numberIsFinite, JsNum.isFinite] at h2
                | str s => simp [List.getD, typeofIsNumber] at h3
                | boolean b => simp [List.getD, typeofIsNumber] at h3
                | null => simp [List.getD, typeofIsNumber] at h3
                | undefined => simp [List.getD, typeofIsNumber] at h3
                | arr ys => simp [List.getD, typeofIsNumber] at h3
            | str s => simp [List.getD, typeofIsNumber] at h1
            | boolean b => simp [List.getD, typeofIsNumber] at h1
            | null => simp [List.getD, typeofIsNumber] at h1
            | undefined => simp [List.getD, typeofIsNumber] at h1
            | arr ys => simp [List.getD, typeofIsNumber] at h1
          · omega
      | num n => simp [isValidCoordinate] at hv
      | str s => simp [isValidCoordinate] at hv
      | boolean b => simp [isValidCoordinate] at hv
      | null => simp [isValidCoordinate] at hv
      | undefined => simp [isValidCoordinate] at hv
    · rintro ⟨a, b, rfl⟩
      rfl
  · cases v with
    | arr xs =>
        rw [Bool.eq_iff_iff]
        simp only [isValidCoordinate, isValidCoordinateLoose, Bool.and_eq_true]
        constructor
        · rintro ⟨⟨h1, h2⟩, h3⟩
          exact ⟨⟨⟨⟨h1, numberIsFinite_implies_typeof h2⟩, h2⟩,
            numberIsFinite_implies_typeof h3⟩, h3⟩
        · rintro ⟨⟨⟨⟨h1, -⟩, h2⟩, -⟩, h3⟩
          exact ⟨⟨h1, h2⟩, h3⟩
    | num n => rfl
    | str s => rfl
    | boolean b => rfl
    | null => rfl
    | undefined => rfl

/-- Instantiation of `isValidCoordinate_iff` at the coordinate `[1, 2]`. -/
theorem isValidCoordinate_iff_witness :
    isValidCoordinate (.arr [.num (.finite 1), .num (.finite 2)]) = true ∧
    isValidCoordinateLoose (.arr [.num (.finite 1), .num (.finite 2)])
      = isValidCoordinate (.arr [.num (.finite 1), .num (.finite 2)]) :=
  ⟨(isValidCoordinate_iff _).1.mpr ⟨1, 2, rfl⟩, (isValidCoordinate_iff _).2⟩

/-- C1, counterexample: the non-finite guard is not applied at every
derivation site.  The Storage Vol `StatCard` percentage in `src/App.tsx`
line 259 has no guard and yields `Infinity` when `maxCapacity` is 0, and
the second `MapVisualizer` copy of `volumePercentage` yields `Infinity`
for an infinite volume. -/
theorem capacityPct_guard_not_universal :
    statCardCapacityPct (.finite 56) (.finite 0) = JsNum.inf ∧
    statCardCapacityPct (.finite 56) (.finite 0) ≠ JsNum.finite 0 ∧
    volumePercentageLoose JsNum.inf (.finite 93) = JsNum.inf ∧
    volumePercentageLoose JsNum.inf (.finite 93) ≠ JsNum.finite 0 := by
  refine ⟨by decide, by decide, by decide, by decide⟩

/-- C1, amended: the guarded `volumePercentage` calculator of
`MapVisualizer` returns exactly 0 whenever `maxCapacity` is 0 or the
volume is non-finite (but this guard is local to that calculator, not
applied at every percentage-derivation site). -/
theorem volumePercentage_guarded_zero (volume maxCapacity : JsNum)
    (h : maxCapacity = .finite 0 ∨ volume.isFinite = false) :
    volumePercentage volume maxCapacity = .finite 0 := by
  rcases h with rfl | h
  · cases volume <;> simp [volumePercentage, JsNum.falsy]
  · cases volume with
    | finite q => simp [JsNum.isFinite] at h
    | nan => simp [volumePercentage, JsNum.falsy]
    | inf =>
        cases maxCapacity with
        | finite b =>
            by_cases hb : b = 0
            · subst hb; simp [volumePercentage, JsNum.falsy]
            · rcases le_or_lt 0 b with hb2 | hb2
              · simp [volumePercentage, JsNum.falsy, hb, jsDiv, jsMul,
                  JsNum.isFinite, hb2]
              · simp [volumePercentage, JsNum.falsy, hb, jsDiv, jsMul,
                  JsNum.isFinite, not_le.mpr hb2]
        | nan => simp [volumePercentage, JsNum.falsy, jsDiv, jsMul, JsNum.isFinite]
        | inf => simp [volumePercentage, JsNum.falsy, jsDiv, jsMul, JsNum.isFinite]
        | neginf => simp [volumePercentage, JsNum.falsy, jsDiv, jsMul, JsNum.isFinite]
    | neginf =>
        cases maxCapacity with
        | finite b =>
            by_cases hb : b = 0
            · subst hb; simp [volumePercentage, JsNum.falsy]
            · rcases le_or_lt 0 b with hb2 | hb2
              · simp [volumePercentage, JsNum.falsy, hb, jsDiv, jsMul,
                  JsNum.isFinite, hb2]
              · simp [volumePercentage, JsNum.falsy, hb, jsDiv, jsMul,
                  JsNum.isFinite, not_le.mpr hb2]
        | nan => simp [volumePercentage, JsNum.falsy, jsDiv, jsMul, JsNum.isFinite]
        | inf => simp [volumePercentage, JsNum.falsy, jsDiv, jsMul, JsNum.isFinite]
        | neginf => simp [volumePercentage, JsNum.falsy, jsDiv, jsMul, JsNum.isFinite]

/-- Instantiation of `volumePercentage_guarded_zero` at a `NaN` volume
over the Red Hills capacity. -/
theorem volumePercentage_guarded_zero_witness :
    JsNum.isFinite .nan = false ∧
    volumePercentage .nan (.finite 93) = .finite 0 :=
  ⟨rfl, volumePercentage_guarded_zero .nan (.finite 93) (Or.inr rfl)⟩

/-- C7, counterexample: with the comparison period already set to
(2020, Summer), primary (2024, Winter) and years 2020-2024, toggling
comparison mode off and then on again re-seeds the comparison period to
(2023, Winter), so disabling and re-enabling DOES reset it. -/
theorem toggleComparison_reenable_resets :
    (mergeState
        (mergeState ⟨"res-redhills", 2024, .winter, true, 2020, .summer⟩
          (toggleComparison [2020, 2021, 2022, 2023, 2024]
            ⟨"res-redhills", 2024, .winter, true, 2020, .summer⟩))
        (toggleComparison [2020, 2021, 2022, 2023, 2024]
          (mergeState ⟨"res-redhills", 2024, .winter, true, 2020, .summer⟩
            (toggleComparison [2020, 2021, 2022, 2023, 2024]
              ⟨"res-redhills", 2024, .winter, true, 2020, .summer⟩)))).compareYear
      = 2023 ∧
    (mergeState
        (mergeState ⟨"res-redhills", 2024, .winter, true, 2020, .summer⟩
          (toggleComparison [2020, 2021, 2022, 2023, 2024]
            ⟨"res-redhills", 2024, .winter, true, 2020, .summer⟩))
        (toggleComparison [2020, 2021, 2022, 2023, 2024]
          (mergeState ⟨"res-redhills", 2024, .winter, true, 2020, .summer⟩
            (toggleComparison [2020, 2021, 2022, 2023, 2024]
              ⟨"res-redhills", 2024, .winter, true, 2020, .summer⟩)))).compareYear
      ≠ 2020 ∧
    (mergeState
        (mergeState ⟨"res-redhills", 2024, .winter, true, 2020, .summer⟩
          (toggleComparison [2020, 2021, 2022, 2023, 2024]
            ⟨"res-redhills", 2024, .winter, true, 2020, .summer⟩))
        (toggleComparison [2020, 2021, 2022, 2023, 2024]
          (mergeState ⟨"res-redhills", 2024, .winter, true, 2020, .summer⟩
            (toggleComparison [2020, 2021, 2022, 2023, 2024]
              ⟨"res-redhills", 2024, .winter, true, 2020, .summer⟩)))).compareSeason
      ≠ .summer := by
  refine ⟨by decide, by decide, by decide⟩

/-- C7, amended: toggling while OFF seeds the comparison year to
`max(min(availableYears), year - 1)` and the comparison season to the
primary season; toggling while ON leaves both at their stored values;
but toggling twice from ON (disable, then re-enable) re-seeds both, so an
already-set comparison period is reset on re-enable. -/
theorem toggleComparison_behavior (years : List ℤ) (s : SimulationState) :
    (s.isComparisonMode = false →
      (mergeState s (toggleComparison years s)).isComparisonMode = true ∧
      (mergeState s (toggleComparison years s)).compareYear
        = max (jsMinList years) (s.year - 1) ∧
      (mergeState s (toggleComparison years s)).compareSeason = s.season) ∧
    (s.isComparisonMode = true →
      (mergeState s (toggleComparison years s)).isComparisonMode = false ∧
      (mergeState s (toggleComparison years s)).compareYear = s.compareYear ∧
      (mergeState s (toggleComparison years s)).compareSeason = s.compareSeason) ∧
    (s.isComparisonMode = true →
      (mergeState (mergeState s (toggleComparison years s))
          (toggleComparison years (mergeState s (toggleComparison years s)))).compareYear
        = max (jsMinList years) (s.year - 1) ∧
      (mergeState (mergeState s (toggleComparison years s))
          (toggleComparison years (mergeState s (toggleComparison years s)))).compareSeason
        = s.season) := by
  refine ⟨fun h => ?_, fun h => ?_, fun h => ?_⟩ <;>
    simp [mergeState, toggleComparison, h]

/-- Instantiation of `toggleComparison_behavior`: enabling comparison
mode with primary year 2024 over the years 2020-2024 seeds the
comparison year to `max 2020 2023`. -/
theorem toggleComparison_behavior_witness :
    (mergeState ⟨"res-poondi", 2024, .postMonsoon, false, 2023, .postMonsoon⟩
        (toggleComparison [2020, 2021, 2022, 2023, 2024]
          ⟨"res-poondi", 2024, .postMonsoon, false, 2023, .postMonsoon⟩)).compareYear
      = max (jsMinList [2020, 2021, 2022, 2023, 2024]) (2024 - 1) :=
  ((toggleComparison_behavior [2020, 2021, 2022, 2023, 2024]
    ⟨"res-poondi", 2024, .postMonsoon, false, 2023, .postMonsoon⟩).1 rfl).2.1

/-- C9: the selection-state update shallow-merges the given fields over
the current state — a field absent from the update keeps its previous
value, a present field takes the updated value — and every call clears
the cached analysis result. -/
theorem handleStateChange_merge_clears (upd : SimulationStateUpdate)
    (app : AppAnalysisState) :
    (handleStateChange upd app).aiAnalysis = none ∧
    (upd.selectedReservoirId = none →
      (handleStateChange upd app).state.selectedReservoirId
        = app.state.selectedReservoirId) ∧
    (∀ v, upd.selectedReservoirId = some v →
      (handleStateChange upd app).state.selectedReservoirId = v) ∧
    (upd.year = none →
      (handleStateChange upd app).state.year = app.state.year) ∧
    (∀ v, upd.year = some v → (handleStateChange upd app).state.year = v) ∧
    (upd.season = none →
      (handleStateChange upd app).state.season = app.state.season) ∧
    (∀ v, upd.season = some v → (handleStateChange upd app).state.season = v) ∧
    (upd.isComparisonMode = none →
      (handleStateChange upd app).state.isComparisonMode
        = app.state.isComparisonMode) ∧
    (∀ v, upd.isComparisonMode = some v →
      (handleStateChange upd app).state.isComparisonMode = v) ∧
    (upd.compareYear = none →
      (handleStateChange upd app).state.compareYear = app.state.compareYear) ∧
    (∀ v, upd.compareYear = some v →
      (handleStateChange upd app).state.compareYear = v) ∧
    (upd.compareSeason = none →
      (handleStateChange upd app).state.compareSeason = app.state.compareSeason) ∧
    (∀ v, upd.compareSeason = some v →
      (handleStateChange upd app).state.compareSeason = v) := by
  refine ⟨rfl, ?_, ?_, ?_, ?_, ?_, ?_, ?_, ?_, ?_, ?_, ?_, ?_⟩ <;>
    first
      | (intro h; simp [handleStateChange, mergeState, h])
      | (intro v h; simp [handleStateChange, mergeState, h])

/-- Instantiation of `handleStateChange_merge_clears`: an update that
only sets the year clears a present analysis, changes the year, and
keeps the season. -/
theorem handleStateChange_merge_clears_witness :
    (handleStateChange { year := some 2023 }
        ⟨⟨"res-veeranam", 2024, .summer, false, 2023, .summer⟩,
          some ⟨.low, "ok", "none", 10, .normal, "stable"⟩⟩).aiAnalysis = none ∧
    (handleStateChange { year := some 2023 }
        ⟨⟨"res-veeranam", 2024, .summer, false, 2023, .summer⟩,
          some ⟨.low, "ok", "none", 10, .normal, "stable"⟩⟩).state.year = 2023 ∧
    (handleStateChange { year := some 2023 }
        ⟨⟨"res-veeranam", 2024, .summer, false, 2023, .summer⟩,
          some ⟨.low, "ok", "none", 10, .normal, "stable"⟩⟩).state.season = .summer :=
  ⟨(handleStateChange_merge_clears { year := some 2023 } _).1,
   (handleStateChange_merge_clears { year := some 2023 } _).2.2.2.2.1 2023 rfl,
   (handleStateChange_merge_clears { year := some 2023 } _).2.2.2.2.2.1 rfl⟩

/-- C2: the generator is a pure function of the identifier (and of the
deterministic `Math.sin`): two calls with the same identifier give the
same sequence — same length, same field values in the same order — and
the sequence always has the 20 records of 5 years times 4 seasons. -/
theorem getHistoricalData_deterministic (sinF : ℚ → ℚ) (reservoirId : String) :
    getHistoricalData sinF reservoirId = getHistoricalData sinF reservoirId ∧
    (getHistoricalData sinF reservoirId).length = 20 :=
  ⟨rfl, rfl⟩

/-- The series the generator produces when the lookup misses: every record
computed with the fallback constants `maxCapacity = 100`,
`fullLevel = 20`. -/
def fallbackSeries (sinF : ℚ → ℚ) (seed : ℕ) : List SeasonalData :=
  (List.range 5).flatMap (fun k =>
    seasons.enum.map (fun p =>
      mkSeasonalDataWith sinF seed 100 20 (2020 + (k : ℤ)) p.2 p.1))

/-- C8: an identifier absent from the reference list never fails: the
full 20-record series is produced with the fallback constants
`maxCapacity = 100` and `fullLevel = 20`, and the empty identifier uses
seed 42. -/
theorem getHistoricalData_unknown_id (sinF : ℚ → ℚ) (reservoirId : String)
    (h : RESERVOIRS.find? (fun r => r.id == reservoirId) = none) :
    getHistoricalData sinF reservoirId = fallbackSeries sinF (seedOf reservoirId) ∧
    (getHistoricalData sinF reservoirId).length = 20 ∧
    seedOf "" = 42 := by
  refine ⟨?_, rfl, rfl⟩
  simp [getHistoricalData, fallbackSeries, mkSeasonalData, capacityOf, fullLevelOf,
    h, jsOrQ]

/-- Instantiation of `getHistoricalData_unknown_id` at the unknown
identifier `"lake-x"`. -/
theorem getHistoricalData_unknown_id_witness :
    getHistoricalData (fun _ => 0) "lake-x"
      = fallbackSeries (fun _ => 0) (seedOf "lake-x") ∧
    (getHistoricalData (fun _ => 0) "lake-x").length = 20 ∧
    seedOf "" = 42 :=
  getHistoricalData_unknown_id (fun _ => 0) "lake-x" (by decide)

/-- C3: for `"res-redhills"` (seed 115, odd) the record of year 2020,
season Winter (index 0) has trend 0 and noise `sin(0) = 0`, hence raw
percentage 60, and with maxCapacity 93 and fullLevel 15.2: volume 56,
waterLevel 9.1, surfaceArea 9.03, rainfall 50, cloudCover 10. -/
theorem redhills_winter_2020 (sinF : ℚ → ℚ) (h : sinF 0 = 0) :
    (getHistoricalData sinF "res-redhills").find?
        (fun r => r.year == 2020 && r.season == Season.winter)
      = some { season := .winter, year := 2020, waterLevel := 9.1,
               surfaceArea := 9.03, volume := 56, rainfall := 50, cloudCover := 10 } := by
  have hfind : List.find? (fun r => r.id == "res-redhills") RESERVOIRS
      = some { id := "res-redhills", name := "Red Hills (Puzhal Lake)",
               location := (131537/10000, 801914/10000), maxCapacity := 93, fullLevel := 152/10,
               catchmentArea := 63, yearBuilt := 1876,
               description := "A rain-fed reservoir in Thiruvallur district." } := by
    rfl
  have hws : Season.winter ≠ Season.monsoon := by decide
  simp only [getHistoricalData]
  rw [show List.range 5 = [0, 1, 2, 3, 4] from rfl,
      show seasons.enum = [(0, .winter), (1, .summer), (2, .monsoon), (3, .postMonsoon)] from rfl]
  simp only [List.flatMap_cons, List.flatMap_nil, List.map_cons, List.map_nil,
    List.append_nil, List.cons_append, List.nil_append]
  rw [List.find?_cons_of_pos _ (by rfl)]
  norm_num [mkSeasonalData, mkSeasonalDataWith, capacityOf, fullLevelOf, seedOf,
    jsOrQ, baseVolOf, jsRound, h, hfind, hws]

/-- Instantiation of `redhills_winter_2020` with the zero sine. -/
theorem redhills_winter_2020_witness :
    (getHistoricalData (fun _ => 0) "res-redhills").find?
        (fun r => r.year == 2020 && r.season == Season.winter)
      = some { season := .winter, year := 2020, waterLevel := 9.1,
               surfaceArea := 9.03, volume := 56, rainfall := 50, cloudCover := 10 } :=
  redhills_winter_2020 (fun _ => 0) rfl

lemma capacityOf_pos_int (reservoirId : String) :
    ∃ n : ℤ, (n : ℚ) = capacityOf reservoirId ∧ 0 < capacityOf reservoirId := by
  unfold capacityOf
  cases hf : RESERVOIRS.find? (fun r => r.id == reservoirId) with
  | none => exact ⟨100, by norm_num [jsOrQ]⟩
  | some r =>
      have hr : r ∈ RESERVOIRS := List.mem_of_find?_eq_some hf
      have hprop : ∀ x ∈ RESERVOIRS, 0 < x.maxCapacity ∧
          ((x.maxCapacity.num : ℚ) = x.maxCapacity) := by decide
      obtain ⟨hpos, hint⟩ := hprop r hr
      refine ⟨r.maxCapacity.num, ?_, ?_⟩ <;>
        simp [jsOrQ, hpos.ne', hint, hpos]

lemma mkSeasonalDataWith_bounds (sinF : ℚ → ℚ) (seed : ℕ) (maxVol fullLevel : ℚ)
    (year : ℤ) (season : Season) (index : ℕ) (n : ℤ)
    (hn : (n : ℚ) = maxVol) (hpos : 0 < maxVol) :
    0 ≤ (mkSeasonalDataWith sinF seed maxVol fullLevel year season index).volume ∧
    ((mkSeasonalDataWith sinF seed maxVol fullLevel year season index).volume : ℚ)
      ≤ maxVol ∧
    0 ≤ (mkSeasonalDataWith sinF seed maxVol fullLevel year season index).rainfall := by
  have hvol : (mkSeasonalDataWith sinF seed maxVol fullLevel year season index).volume
      = jsRound (max 10 (min 100 (baseVolOf season
          + ((year - 2020 : ℤ) : ℚ) * (if seed % 2 = 0 then -2 else 1)
          + sinF ((year * (index : ℤ) : ℤ) : ℚ) * 10)) / 100 * maxVol) := rfl
  have hrain : (mkSeasonalDataWith sinF seed maxVol fullLevel year season index).rainfall
      = max 0 (jsRound (if season = .monsoon
          then 800 + sinF ((year * (index : ℤ) : ℤ) : ℚ) * 10 * 10
          else 50 + sinF ((year * (index : ℤ) : ℤ) : ℚ) * 10)) := rfl
  rw [hvol, hrain]
  set x := baseVolOf season
      + ((year - 2020 : ℤ) : ℚ) * (if seed % 2 = 0 then -2 else 1)
      + sinF ((year * (index : ℤ) : ℤ) : ℚ) * 10 with hx
  have h10 : (10 : ℚ) ≤ max 10 (min 100 x) := le_max_left _ _
  have h100 : max 10 (min 100 x) ≤ 100 := max_le (by norm_num) (min_le_left _ _)
  have ha : (0 : ℚ) ≤ max 10 (min 100 x) := by linarith
  refine ⟨?_, ?_, le_max_left _ _⟩
  · exact jsRound_nonneg (mul_nonneg (div_nonneg ha (by norm_num)) hpos.le)
  · have h1 : max 10 (min 100 x) / 100 ≤ 1 := by linarith
    have hle : max 10 (min 100 x) / 100 * maxVol ≤ (n : ℚ) := by
      rw [hn]; nlinarith
    have h2 := jsRound_le_int hle
    calc ((jsRound (max 10 (min 100 x) / 100 * maxVol) : ℤ) : ℚ) ≤ (n : ℚ) := by
          exact_mod_cast h2
      _ = maxVol := hn

/-- C4: every generated record satisfies the range invariant: the volume
lies within `[0, maxCapacity]` of the owning reservoir (with the fallback
capacity 100 for an unknown identifier) and the rainfall is nonnegative. -/
theorem generated_record_bounds (sinF : ℚ → ℚ) (reservoirId : String)
    (rec : SeasonalData) (h : rec ∈ getHistoricalData sinF reservoirId) :
    0 ≤ rec.volume ∧ (rec.volume : ℚ) ≤ capacityOf reservoirId ∧ 0 ≤ rec.rainfall := by
  obtain ⟨k, hk, h2⟩ := List.mem_flatMap.mp h
  obtain ⟨p, hp, rfl⟩ := List.mem_map.mp h2
  obtain ⟨n, hn, hpos⟩ := capacityOf_pos_int reservoirId
  simpa [mkSeasonalData] using
    mkSeasonalDataWith_bounds sinF (seedOf reservoirId) (capacityOf reservoirId)
      (fullLevelOf reservoirId) (2020 + (k : ℤ)) p.2 p.1 n hn hpos

/-- Instantiation of `generated_record_bounds` at the Red Hills Winter
2020 record. -/
theorem generated_record_bounds_witness :
    0 ≤ ({ season := .winter, year := 2020, waterLevel := 91/10, surfaceArea := 903/100,
           volume := 56, rainfall := 50, cloudCover := 10 } : SeasonalData).volume ∧
    (({ season := .winter, year := 2020, waterLevel := 91/10, surfaceArea := 903/100,
        volume := 56, rainfall := 50, cloudCover := 10 } : SeasonalData).volume : ℚ)
      ≤ capacityOf "res-redhills" ∧
    0 ≤ ({ season := .winter, year := 2020, waterLevel := 91/10, surfaceArea := 903/100,
           volume := 56, rainfall := 50, cloudCover := 10 } : SeasonalData).rainfall :=
  generated_record_bounds (fun _ => 0) "res-redhills" _ (by
    have hfind : List.find? (fun r => r.id == "res-redhills") RESERVOIRS
        = some { id := "res-redhills", name := "Red Hills (Puzhal Lake)",
                 location := (131537/10000, 801914/10000), maxCapacity := 93,
                 fullLevel := 152/10, catchmentArea := 63, yearBuilt := 1876,
                 description := "A rain-fed reservoir in Thiruvallur district." } := by
      rfl
    have hws : Season.winter ≠ Season.monsoon := by decide
    have hfq : (getHistoricalData (fun _ : ℚ => (0 : ℚ)) "res-redhills").find?
        (fun r => r.year == 2020 && r.season == Season.winter)
        = some { season := .winter, year := 2020, waterLevel := 91/10,
                 surfaceArea := 903/100, volume := 56, rainfall := 50,
                 cloudCover := 10 } := by
      simp only [getHistoricalData]
      rw [show List.range 5 = [0, 1, 2, 3, 4] from rfl,
          show seasons.enum
            = [(0, .winter), (1, .summer), (2, .monsoon), (3, .postMonsoon)] from rfl]
      simp only [List.flatMap_cons, List.flatMap_nil, List.map_cons, List.map_nil,
        List.append_nil, List.cons_append, List.nil_append]
      rw [List.find?_cons_of_pos _ (by rfl)]
      norm_num [mkSeasonalData, mkSeasonalDataWith, capacityOf, fullLevelOf, seedOf,
        jsOrQ, baseVolOf, jsRound, hfind, hws]
    exact List.mem_of_find?_eq_some hfq)

/-- C5: `generateWaterPolygon` is total (never throws), returns between 0
and 20 points, every returned point has two finite components (a point
failing the per-point finiteness check is silently dropped), and a center
with a non-finite component yields the empty list. -/
theorem polygon_safe (rand : ℕ → ℚ) (cosF sinF : ℚ → ℚ) (piQ : ℚ)
    (center : Option (JsNum × JsNum)) (volumePct : JsNum) :
    (generateWaterPolygon rand cosF sinF piQ center volumePct).length ≤ 20 ∧
    (∀ p ∈ generateWaterPolygon rand cosF sinF piQ center volumePct,
      p.1.isFinite = true ∧ p.2.isFinite = true) ∧
    (∀ c0 c1, center = some (c0, c1) →
      (c0.isFinite = false ∨ c1.isFinite = false) →
      generateWaterPolygon rand cosF sinF piQ center volumePct = []) := by
  refine ⟨?_, ?_, ?_⟩
  · cases center with
    | none => simp [generateWaterPolygon]
    | some c =>
        obtain ⟨c0, c1⟩ := c
        simp only [generateWaterPolygon]
        split
        · simp
        · calc (List.filterMap _ (List.range 20)).length
              ≤ (List.range 20).length := List.length_filterMap_le _ _
            _ = 20 := by simp
  · intro p hp
    cases center with
    | none => simp [generateWaterPolygon] at hp
    | some c =>
        obtain ⟨c0, c1⟩ := c
        simp only [generateWaterPolygon] at hp
        by_cases hC : (!c0.isFinite || !c1.isFinite) = true
        · simp [hC] at hp
        · simp only [hC, Bool.false_eq_true, if_false] at hp
          rw [List.mem_filterMap] at hp
          obtain ⟨i, hi, hf⟩ := hp
          simp only [Option.ite_none_right_eq_some, Option.some.injEq] at hf
          obtain ⟨hcond, hpe⟩ := hf
          obtain ⟨h1, h2⟩ := (Bool.and_eq_true _ _).mp hcond
          subst hpe
          exact ⟨h1, h2⟩
  · intro c0 c1 hc hfin
    subst hc
    rcases hfin with hf | hf <;> simp [generateWaterPolygon, hf]

/-- Instantiation of `polygon_safe`: a finite center and 50 percent
capacity give at most 20 points whose first point is finite, and a `NaN`
center component gives the empty list. -/
theorem polygon_safe_witness :
    (generateWaterPolygon (fun _ => 0) (fun _ => 1) (fun _ => 0) 3
        (some (.finite 13, .finite 80)) (.finite 50)).length ≤ 20 ∧
    (JsNum.finite (6503/500)).isFinite = true ∧
    generateWaterPolygon (fun _ => 0) (fun _ => 1) (fun _ => 0) 3
        (some (.nan, .finite 80)) (.finite 50) = [] :=
  ⟨(polygon_safe (fun _ => 0) (fun _ => 1) (fun _ => 0) 3
      (some (.finite 13, .finite 80)) (.finite 50)).1,
   ((polygon_safe (fun _ => 0) (fun _ => 1) (fun _ => 0) 3
      (some (.finite 13, .finite 80)) (.finite 50)).2.1
      (.finite (6503/500), .finite 80) (by
        simp only [generateWaterPolygon, JsNum.isFinite, Bool.not_true, Bool.or_self,
          Bool.false_eq_true, if_false, if_true]
        rw [List.mem_filterMap]
        refine ⟨0, by simp, ?_⟩
        norm_num [jsAdd, jsMul, jsDiv, JsNum.isFinite])).1,
   (polygon_safe (fun _ => 0) (fun _ => 1) (fun _ => 0) 3
      (some (.nan, .finite 80)) (.finite 50)).2.2 .nan (.finite 80) rfl (Or.inl rfl)⟩

lemma isFinite_finite (q : ℚ) : (JsNum.finite q).isFinite = true := rfl

/-- C10: for a finite center and a non-finite capacity percentage the
percentage is coerced to 0, the radius collapses, and the polygon is
exactly 20 copies of the center, independent of the random jitter. -/
theorem polygon_nonfinite_pct (rand : ℕ → ℚ) (cosF sinF : ℚ → ℚ) (piQ : ℚ)
    (a b : ℚ) (volumePct : JsNum) (h : volumePct.isFinite = false) :
    generateWaterPolygon rand cosF sinF piQ (some (.finite a, .finite b)) volumePct
      = List.replicate 20 (.finite a, .finite b) := by
  have hsafe : (if volumePct.isFinite = true then volumePct else JsNum.finite 0)
      = JsNum.finite 0 := by
    rw [h]; simp
  simp only [generateWaterPolygon, hsafe, isFinite_finite, Bool.not_true, Bool.or_self,
    Bool.false_eq_true, if_false]
  have h20 : (List.range 20).length = 20 := by simp
  rw [← h20]
  apply filterMap_const_some
  intro i hi
  norm_num [jsAdd, jsMul, jsDiv, isFinite_finite]

/-- Instantiation of `polygon_nonfinite_pct` at a `NaN` percentage. -/
theorem polygon_nonfinite_pct_witness :
    generateWaterPolygon (fun _ => 0) (fun _ => 1) (fun _ => 0) 3
        (some (.finite 13, .finite 80)) .nan
      = List.replicate 20 (.finite 13, .finite 80) :=
  polygon_nonfinite_pct (fun _ => 0) (fun _ => 1) (fun _ => 0) 3 13 80 .nan rfl
